import Mathlib

set_option maxRecDepth 8000

/-!
# Verification of the RocketLauncher launch controller

Shallow embedding of `src/RocketController.{h,cpp}`: the launch state
machine (`RocketController::update` and its per-state handlers) and the
non-blocking buzzer sequencer (`playBuzzerSequence`, `stopBuzzer`,
`updateBuzzer`).

Modelling conventions:
* `uint32_t` timestamps are `Nat` values reduced modulo `2^32` at the
  points where the C code's unsigned arithmetic wraps (`sub32`, `add32`).
* The Arduino idiom `(long)(now - deadline) >= 0` (32-bit signed view of
  the wrapped difference) is `wrapGE0`.
* `enter` reads the clock via `interface->millis()`; inside a call to
  `update(now)` (the only places `enter` is invoked by the machine, and
  the driver always passes `millis()` as `now`) that read returns `now`,
  so `enter` takes the current time as an argument.
* LCD output is advisory only and is not modelled; the four discrete
  outputs (`setOutputs`) and the tone commands issued to the buzzer pin
  are modelled explicitly.  The buzzer functions return the list of tone
  commands (`ToneAct`) they issue during the call.
-/

/-- `2^32`, the modulus of the `uint32_t` millisecond clock. -/
def U32 : Nat := 4294967296

/-- Wrapped `uint32_t` addition, used for `deadline = millis() + K`. -/
def add32 (a b : Nat) : Nat := (a + b) % U32

/-- Wrapped `uint32_t` subtraction `a - b`, used for elapsed-time tests
such as `now - lastCheckTime >= STARTUP_CHECK_INTERVAL`. -/
def sub32 (a b : Nat) : Nat := (a % U32 + (U32 - b % U32)) % U32

/-- The source idiom `(long)(a - b) >= 0`: the wrapped difference read as
a 32-bit signed integer is non-negative. -/
def wrapGE0 (a b : Nat) : Bool := decide (sub32 a b < 2147483648)

/-- `struct BuzzNote` from `RocketController.h`. -/
structure BuzzNote where
  freq : Nat
  ms : Nat
  gap_ms : Nat
deriving DecidableEq, Repr

/-- `SND_CHIRP` from `RocketController.cpp`. -/
def SND_CHIRP : List BuzzNote := [⟨2000, 80, 40⟩, ⟨2500, 80, 0⟩]

/-- `SND_ARMED` from `RocketController.cpp`. -/
def SND_ARMED : List BuzzNote := [⟨1200, 180, 120⟩, ⟨1600, 180, 700⟩]

/-- `SND_COUNTDOWN_SIREN` from `RocketController.cpp`. -/
def SND_COUNTDOWN_SIREN : List BuzzNote := [⟨1400, 120, 40⟩, ⟨2600, 120, 720⟩]

/-- `SND_LAUNCH` from `RocketController.cpp`. -/
def SND_LAUNCH : List BuzzNote := [⟨1800, 500, 0⟩]

/-- `SND_ABORT` from `RocketController.cpp`. -/
def SND_ABORT : List BuzzNote := [⟨900, 120, 60⟩, ⟨700, 120, 60⟩]

/-- `SND_FAULT` from `RocketController.cpp`. -/
def SND_FAULT : List BuzzNote := [⟨800, 200, 50⟩, ⟨600, 200, 150⟩]

/-- `SND_CHECK` from `RocketController.cpp`. -/
def SND_CHECK : List BuzzNote := [⟨1500, 100, 0⟩]

/-- `struct BuzzPlayer` from `RocketController.h`.  The `const BuzzNote*`
pointer becomes an `Option (List BuzzNote)` (`none` = `nullptr`); `len`
and `idx` are the `uint8_t` fields. -/
structure BuzzPlayer where
  seq : Option (List BuzzNote) := none
  len : Nat := 0
  idx : Nat := 0
  loop : Bool := false
  inGap : Bool := false
  active : Bool := false
  stepDeadline : Nat := 0
deriving DecidableEq, Repr

/-- A tone command issued to the buzzer pin during one call:
`interface->tone(9, f, d)` or `interface->noTone(9)`. -/
inductive ToneAct where
  | tone (freq : Nat) (dur : Nat)
  | noTone
deriving DecidableEq, Repr

/-- `RocketController::playBuzzerSequence(sequence, length, loop)`. -/
def playBuzzerSequence (sequence : Option (List BuzzNote)) (length : Nat)
    (loop : Bool) : BuzzPlayer :=
  { seq := sequence
    len := length
    idx := 0
    loop := loop
    inGap := false
    active := sequence.isSome && decide (0 < length)
    stepDeadline := 0 }

/-- `RocketController::stopBuzzer()`: deactivates the player, clears the
sequence pointer and issues `noTone` in the same call. -/
def stopBuzzer (b : BuzzPlayer) : BuzzPlayer × List ToneAct :=
  ({ b with active := false, seq := none }, [ToneAct.noTone])

/-- `RocketController::updateBuzzer(now)`: one non-blocking step of the
sequencer, returning the new player state and the tone commands issued.
`buzzer.idx++` on the `uint8_t` field is `(idx + 1) % 256`. -/
def updateBuzzer (now : Nat) (b : BuzzPlayer) : BuzzPlayer × List ToneAct :=
  match b.seq with
  | none => (b, [])
  | some s =>
    if b.active = false ∨ b.len = 0 then (b, [])
    else
      let n := s.getD b.idx ⟨0, 0, 0⟩
      if b.stepDeadline = 0 then
        if b.inGap = false then
          ({ b with stepDeadline := add32 now n.ms },
            if 0 < n.freq then [ToneAct.tone n.freq n.ms] else [ToneAct.noTone])
        else
          ({ b with stepDeadline := add32 now n.gap_ms }, [ToneAct.noTone])
      else if wrapGE0 now b.stepDeadline then
        if b.inGap = false ∧ 0 < n.gap_ms then
          ({ b with inGap := true, stepDeadline := 0 }, [])
        else
          let idx1 := (b.idx + 1) % 256
          if b.len ≤ idx1 then
            if b.loop then
              ({ b with inGap := false, idx := 0, stepDeadline := 0 }, [])
            else
              ({ b with inGap := false, idx := idx1, stepDeadline := 0, active := false },
                [ToneAct.noTone])
          else
            ({ b with inGap := false, idx := idx1, stepDeadline := 0 }, [])
      else (b, [])

/-- `enum class State` from `RocketController.h`. -/
inductive State where
  | STARTUP
  | SPLASH
  | READY
  | ARMED
  | LAUNCH_COUNTDOWN
  | LAUNCHING
  | COOLDOWN
  | ABORT
  | FAULT
deriving DecidableEq, Repr

/-- The three debounced inputs read through `ArduinoInterface` during one
tick: `isArmPressed()`, `isResetPressed()`, `isLaunchPressed()`. -/
structure Inputs where
  arm : Bool
  reset : Bool
  launch : Bool
deriving DecidableEq, Repr

/-- The four discrete output channels driven by
`RocketController::setOutputs(readyLed, armedLed, launchLamp, relayOn)`. -/
structure Outputs where
  readyLed : Bool
  armedLed : Bool
  launchLamp : Bool
  relayOn : Bool
deriving DecidableEq, Repr

/-- All channels off: `setOutputs(false, false, false, false)`. -/
def Outputs.allOff : Outputs := ⟨false, false, false, false⟩

/-- `HOLD_TO_LAUNCH_MS` from `RocketController.h`. -/
def HOLD_TO_LAUNCH_MS : Nat := 5000

/-- `RELAY_ON_MS` from `RocketController.h`. -/
def RELAY_ON_MS : Nat := 5000

/-- `COOLDOWN_MS` from `RocketController.h`. -/
def COOLDOWN_MS : Nat := 5000

/-- `ABORT_INHIBIT_MS` from `RocketController.h`. -/
def ABORT_INHIBIT_MS : Nat := 1500

/-- `RESET_HOLD_MS` from `RocketController.h`. -/
def RESET_HOLD_MS : Nat := 2500

/-- `STARTUP_CHECKS_COUNT` from `RocketController.h`. -/
def STARTUP_CHECKS_COUNT : Nat := 20

/-- `STARTUP_CHECK_INTERVAL = STARTUP_TOTAL_TIME_MS / STARTUP_CHECKS_COUNT
= 5000 / 20` from `RocketController.h`. -/
def STARTUP_CHECK_INTERVAL : Nat := 5000 / STARTUP_CHECKS_COUNT

/-- The mutable fields of `class RocketController` (hardware handle and
LCD aside), plus the modelled discrete outputs `out`. -/
structure Ctrl where
  state : State
  enteredAt : Nat
  deadline : Nat
  launchHeldSince : Nat
  resetHeldSince : Nat
  startupCheckIndex : Nat
  lastCheckTime : Nat
  completionTime : Nat
  startupComplete : Bool
  systemLocked : Bool
  out : Outputs
  buzzer : BuzzPlayer
deriving DecidableEq, Repr

/-- `RocketController::globalFaultActive()`: stub, always `false`. -/
def globalFaultActive (_c : Ctrl) : Bool := false

/-- `RocketController::enter(newState)`, with `now` standing for the
`interface->millis()` reads made during the call. -/
def enter (newState : State) (now : Nat) (c : Ctrl) : Ctrl :=
  let n := now % U32
  let c1 := { c with state := newState, enteredAt := n }
  match newState with
  | State.STARTUP =>
      { c1 with
          out := Outputs.allOff
          startupCheckIndex := 0
          lastCheckTime := 0
          startupComplete := false
          buzzer := playBuzzerSequence (some SND_CHIRP) 2 false
          systemLocked := true }
  | State.SPLASH =>
      { c1 with
          out := Outputs.allOff
          buzzer := playBuzzerSequence (some SND_CHIRP) 2 false
          deadline := add32 n 5000
          systemLocked := true }
  | State.READY =>
      { c1 with
          out := ⟨true, false, false, false⟩
          buzzer := (stopBuzzer c1.buzzer).1
          systemLocked := false }
  | State.ARMED =>
      { c1 with
          out := ⟨false, true, false, false⟩
          buzzer := playBuzzerSequence (some SND_ARMED) 2 true
          launchHeldSince := 0 }
  | State.LAUNCH_COUNTDOWN =>
      { c1 with
          out := ⟨false, true, false, false⟩
          buzzer := playBuzzerSequence (some SND_COUNTDOWN_SIREN) 2 true }
  | State.LAUNCHING =>
      { c1 with
          out := ⟨false, false, true, true⟩
          deadline := add32 n RELAY_ON_MS
          buzzer := playBuzzerSequence (some SND_LAUNCH) 1 true }
  | State.COOLDOWN =>
      { c1 with
          out := Outputs.allOff
          deadline := add32 n COOLDOWN_MS
          buzzer := (stopBuzzer c1.buzzer).1 }
  | State.ABORT =>
      { c1 with
          out := Outputs.allOff
          deadline := add32 n ABORT_INHIBIT_MS
          buzzer := playBuzzerSequence (some SND_ABORT) 2 false }
  | State.FAULT =>
      { c1 with
          out := Outputs.allOff
          resetHeldSince := 0
          buzzer := playBuzzerSequence (some SND_FAULT) 2 true
          systemLocked := false }

/-- `RocketController::updateStartup(now)`.  LCD writes are dropped; the
check-item side effects kept are the `SND_CHECK` chirp and the progress
counters. -/
def updateStartup (inp : Inputs) (now : Nat) (c : Ctrl) : Ctrl :=
  if inp.arm = true ∨ inp.reset = true ∨ inp.launch = true then
    enter State.FAULT now c
  else if STARTUP_CHECK_INTERVAL ≤ sub32 now c.lastCheckTime then
    let c1 := { c with lastCheckTime := now % U32 }
    if c1.startupCheckIndex < STARTUP_CHECKS_COUNT then
      { c1 with
          buzzer := playBuzzerSequence (some SND_CHECK) 1 false
          startupCheckIndex := c1.startupCheckIndex + 1 }
    else
      let c2 :=
        if c1.startupComplete = false then
          { c1 with completionTime := now % U32, startupComplete := true }
        else c1
      if 1000 ≤ sub32 now c2.completionTime then enter State.READY now c2 else c2
  else c

/-- `RocketController::updateSplash(now)`. -/
def updateSplash (_inp : Inputs) (now : Nat) (c : Ctrl) : Ctrl :=
  if wrapGE0 now c.deadline then enter State.STARTUP now c else c

/-- `RocketController::updateReady(now)`. -/
def updateReady (inp : Inputs) (now : Nat) (c : Ctrl) : Ctrl :=
  if c.systemLocked = false ∧ inp.arm = true then enter State.ARMED now c else c

/-- `RocketController::updateArmed(now)`. -/
def updateArmed (inp : Inputs) (now : Nat) (c : Ctrl) : Ctrl :=
  if c.systemLocked = false ∧ inp.arm = false then enter State.READY now c
  else if c.systemLocked = false ∧ inp.launch = true then
    let c1 :=
      if c.launchHeldSince = 0 then { c with launchHeldSince := now % U32 } else c
    if 250 ≤ sub32 now c1.launchHeldSince then enter State.LAUNCH_COUNTDOWN now c1
    else c1
  else { c with launchHeldSince := 0 }

/-- `RocketController::updateLaunchCountdown(now)`.  The `static` LCD
refresh timer only affects the display and is dropped. -/
def updateLaunchCountdown (inp : Inputs) (now : Nat) (c : Ctrl) : Ctrl :=
  if c.systemLocked = false ∧ inp.arm = false then enter State.FAULT now c
  else if c.systemLocked = false ∧ inp.launch = false then enter State.ABORT now c
  else if HOLD_TO_LAUNCH_MS ≤ sub32 now c.enteredAt then enter State.LAUNCHING now c
  else c

/-- `RocketController::updateLaunching(now)`. -/
def updateLaunching (_inp : Inputs) (now : Nat) (c : Ctrl) : Ctrl :=
  if wrapGE0 now c.deadline then
    enter State.COOLDOWN now { c with out := Outputs.allOff }
  else c

/-- `RocketController::updateCooldown(now)`. -/
def updateCooldown (_inp : Inputs) (now : Nat) (c : Ctrl) : Ctrl :=
  if wrapGE0 now c.deadline then enter State.FAULT now c else c

/-- `RocketController::updateAbort(now)`. -/
def updateAbort (inp : Inputs) (now : Nat) (c : Ctrl) : Ctrl :=
  if wrapGE0 now c.deadline then
    if inp.arm = true then enter State.ARMED now c else enter State.READY now c
  else c

/-- `RocketController::updateFault(now)`.  The `static` LCD refresh timer
only affects the display and is dropped. -/
def updateFault (inp : Inputs) (now : Nat) (c : Ctrl) : Ctrl :=
  if c.systemLocked = false ∧ inp.arm = false then
    if inp.reset = true then
      let c1 :=
        if c.resetHeldSince = 0 then { c with resetHeldSince := now % U32 } else c
      if RESET_HOLD_MS ≤ sub32 now c1.resetHeldSince ∧ globalFaultActive c1 = false then
        enter State.READY now c1
      else c1
    else { c with resetHeldSince := 0 }
  else { c with resetHeldSince := 0 }

/-- `RocketController::update(now)`: advance the buzzer, apply the
global-fault override, then dispatch on the current state. -/
def update (inp : Inputs) (now : Nat) (c : Ctrl) : Ctrl :=
  let c0 := { c with buzzer := (updateBuzzer now c.buzzer).1 }
  if c0.state ≠ State.FAULT ∧ globalFaultActive c0 = true then
    enter State.FAULT now c0
  else
    match c0.state with
    | State.STARTUP => updateStartup inp now c0
    | State.SPLASH => updateSplash inp now c0
    | State.READY => updateReady inp now c0
    | State.ARMED => updateArmed inp now c0
    | State.LAUNCH_COUNTDOWN => updateLaunchCountdown inp now c0
    | State.LAUNCHING => updateLaunching inp now c0
    | State.COOLDOWN => updateCooldown inp now c0
    | State.ABORT => updateAbort inp now c0
    | State.FAULT => updateFault inp now c0

/-- The freshly constructed controller: the constructor sets
`state = STARTUP` and `systemLocked = true`; the remaining fields carry
their member initializers (zero / `false`), and all output pins start
low. -/
def initCtrl : Ctrl :=
  { state := State.STARTUP
    enteredAt := 0
    deadline := 0
    launchHeldSince := 0
    resetHeldSince := 0
    startupCheckIndex := 0
    lastCheckTime := 0
    completionTime := 0
    startupComplete := false
    systemLocked := true
    out := Outputs.allOff
    buzzer := {} }

/-- No control active. -/
def quiet : Inputs := ⟨false, false, false⟩

/-- Run one `update` call per entry of `ts`, in order: the driver loop
calling `update(millis())` at the clock readings listed in `ts`. -/
def runTicks (inp : Inputs) (c : Ctrl) (ts : List Nat) : Ctrl :=
  ts.foldl (fun a t => update inp t a) c

/-! ## Concrete states used by the claim instances -/

/-- Concrete Cooldown state for the C1 witness: Cooldown entered at
`t = 16250`, so its deadline is `21250`. -/
def cCool : Ctrl := enter State.COOLDOWN 16250 initCtrl

/-- Concrete Launching state for the C2 witness: Launching entered at
`t = 11250`, deadline `16250`. -/
def cLaunch : Ctrl := enter State.LAUNCHING 11250 initCtrl

/-- Concrete LaunchCountdown state for the C3 witness: entered at
`t = 6250` with the system unlocked. -/
def cCount : Ctrl := enter State.LAUNCH_COUNTDOWN 6250 (enter State.READY 6000 initCtrl)

/-- Fault state entered 100 ms before the clock wraps, system unlocked. -/
def cFault0 : Ctrl := enter State.FAULT 4294967196 initCtrl

/-- Arm disengaged, reset held, launch released. -/
def resetHeldInp : Inputs := ⟨false, true, false⟩

/-- Fault state entered at `t = 21250` (well clear of the wrap edge). -/
def cFault1 : Ctrl := enter State.FAULT 21250 initCtrl

/-- Armed state entered 100 ms before the clock wraps (via Ready, so the
system is unlocked). -/
def cArmed0 : Ctrl :=
  enter State.ARMED 4294967196 (enter State.READY 4294966196 initCtrl)

/-- Arm engaged, reset released, launch held. -/
def armLaunch : Inputs := ⟨true, false, true⟩

/-- Armed state entered at `t = 5000` (well clear of the wrap edge). -/
def cArmed1 : Ctrl := enter State.ARMED 5000 (enter State.READY 4000 initCtrl)

/-- The buzzer invariant of C10: an active player has a sequence, a
positive length within that sequence, and an index below the length. -/
def buzzerWF (b : BuzzPlayer) : Bool :=
  !b.active ||
    (match b.seq with
     | some s => decide (b.len ≤ s.length) && decide (0 < b.len) && decide (b.idx < b.len)
     | none => false)

/-- A playing `SND_LAUNCH` step started at `now = 2^32 - 500`: its step
deadline `(2^32 - 500) + 500` wraps to exactly 0. -/
def bLaunch0 : BuzzPlayer :=
  (updateBuzzer 4294966796 (playBuzzerSequence (some SND_LAUNCH) 1 true)).1

/-- Exact state of the Startup progress counters after the per-millisecond
ticks `0, 1, ..., n` (for `n ≤ 6249`). -/
abbrev StInv (n : Nat) (c : Ctrl) : Prop :=
  c.state = State.STARTUP ∧ c.systemLocked = true
  ∧ c.startupCheckIndex = min (n / 250) 20
  ∧ c.lastCheckTime = 250 * (n / 250)
  ∧ (5250 ≤ n → c.startupComplete = true ∧ c.completionTime = 5250)
  ∧ (n < 5250 → c.startupComplete = false ∧ c.completionTime = 0)

/-! ## Basic facts about the wrapped arithmetic and `update`'s dispatch -/

theorem sub32_small {a b : Nat} (hba : b ≤ a) (ha : a < U32) :
    sub32 a b = a - b := by
  have hb : b < U32 := lt_of_le_of_lt hba ha
  unfold sub32
  rw [Nat.mod_eq_of_lt ha, Nat.mod_eq_of_lt hb]
  have h1 : a + (U32 - b) = U32 + (a - b) := by omega
  rw [h1, Nat.add_mod_left, Nat.mod_eq_of_lt (by omega)]

theorem update_dispatch (inp : Inputs) (now : Nat) (c : Ctrl) :
    update inp now c =
      (let c0 : Ctrl := { c with buzzer := (updateBuzzer now c.buzzer).1 }
       match c.state with
       | State.STARTUP => updateStartup inp now c0
       | State.SPLASH => updateSplash inp now c0
       | State.READY => updateReady inp now c0
       | State.ARMED => updateArmed inp now c0
       | State.LAUNCH_COUNTDOWN => updateLaunchCountdown inp now c0
       | State.LAUNCHING => updateLaunching inp now c0
       | State.COOLDOWN => updateCooldown inp now c0
       | State.ABORT => updateAbort inp now c0
       | State.FAULT => updateFault inp now c0) := by
  show update inp now c = _
  unfold update
  simp only [globalFaultActive, Bool.false_eq_true, and_false, if_false, ite_false]

theorem wrap_fire_iff {base d now : Nat} (hd : d < 2147483648)
    (he : sub32 now base < 2147483648) :
    (wrapGE0 now (add32 base d) = true) ↔ d ≤ sub32 now base := by
  simp only [wrapGE0, add32, sub32, U32, decide_eq_true_eq] at *
  omega

theorem enter_cooldown_deadline (c : Ctrl) (now : Nat) :
    (enter State.COOLDOWN now c).deadline = add32 now COOLDOWN_MS := by
  simp [enter, add32, Nat.mod_add_mod]

theorem update_eq_startup {c : Ctrl} (inp : Inputs) (now : Nat)
    (h : c.state = State.STARTUP) :
    update inp now c
      = updateStartup inp now { c with buzzer := (updateBuzzer now c.buzzer).1 } := by
  rw [update_dispatch, h]

theorem update_eq_splash {c : Ctrl} (inp : Inputs) (now : Nat)
    (h : c.state = State.SPLASH) :
    update inp now c
      = updateSplash inp now { c with buzzer := (updateBuzzer now c.buzzer).1 } := by
  rw [update_dispatch, h]

theorem update_eq_armed {c : Ctrl} (inp : Inputs) (now : Nat)
    (h : c.state = State.ARMED) :
    update inp now c
      = updateArmed inp now { c with buzzer := (updateBuzzer now c.buzzer).1 } := by
  rw [update_dispatch, h]

theorem update_eq_countdown {c : Ctrl} (inp : Inputs) (now : Nat)
    (h : c.state = State.LAUNCH_COUNTDOWN) :
    update inp now c
      = updateLaunchCountdown inp now { c with buzzer := (updateBuzzer now c.buzzer).1 } := by
  rw [update_dispatch, h]

theorem update_eq_launching {c : Ctrl} (inp : Inputs) (now : Nat)
    (h : c.state = State.LAUNCHING) :
    update inp now c
      = updateLaunching inp now { c with buzzer := (updateBuzzer now c.buzzer).1 } := by
  rw [update_dispatch, h]

theorem update_eq_cooldown {c : Ctrl} (inp : Inputs) (now : Nat)
    (h : c.state = State.COOLDOWN) :
    update inp now c
      = updateCooldown inp now { c with buzzer := (updateBuzzer now c.buzzer).1 } := by
  rw [update_dispatch, h]

theorem update_eq_abort {c : Ctrl} (inp : Inputs) (now : Nat)
    (h : c.state = State.ABORT) :
    update inp now c
      = updateAbort inp now { c with buzzer := (updateBuzzer now c.buzzer).1 } := by
  rw [update_dispatch, h]

theorem update_eq_fault {c : Ctrl} (inp : Inputs) (now : Nat)
    (h : c.state = State.FAULT) :
    update inp now c
      = updateFault inp now { c with buzzer := (updateBuzzer now c.buzzer).1 } := by
  rw [update_dispatch, h]

/-! ## C1: Cooldown safes unconditionally into Fault -/

/-- Claim C1: From every Cooldown state, an `update(now)` at or past the
cooldown deadline -- which Cooldown entry sets to `COOLDOWN_MS = 5000` ms
after entry -- transitions the controller to Fault; every other `update`
leaves it in Cooldown, so no `update` ever moves Cooldown to a state other
than Cooldown or Fault, and in particular Cooldown never returns to Ready
automatically.  "At or past the deadline" is rendered both by the source's
own wrapped comparison `wrapGE0` and, for a deadline set 5000 ms after an
entry at `base` with `now` within half the counter range of `base`, by the
wrapped elapsed time reaching `COOLDOWN_MS`. -/
theorem cooldown_only_faults (c : Ctrl) (inp : Inputs) (now : Nat)
    (h : c.state = State.COOLDOWN) :
    ((update inp now c).state
        = if wrapGE0 now c.deadline = true then State.FAULT else State.COOLDOWN)
    ∧ (∀ c2 now2, (enter State.COOLDOWN now2 c2).deadline = add32 now2 COOLDOWN_MS)
    ∧ (∀ base, c.deadline = add32 base COOLDOWN_MS → sub32 now base < 2147483648 →
        ((update inp now c).state = State.FAULT ↔ COOLDOWN_MS ≤ sub32 now base)) := by
  have hstep : (update inp now c).state
      = if wrapGE0 now c.deadline = true then State.FAULT else State.COOLDOWN := by
    rw [update_eq_cooldown inp now h]
    unfold updateCooldown
    split <;> simp_all [enter]
  refine ⟨hstep, fun c2 now2 => enter_cooldown_deadline c2 now2, ?_⟩
  intro base hb he
  have hiff := @wrap_fire_iff base COOLDOWN_MS now (by norm_num [COOLDOWN_MS]) he
  rw [hstep, hb]
  by_cases hw : wrapGE0 now (add32 base COOLDOWN_MS) = true
  · simp [hw, hiff.mp hw]
  · rw [if_neg hw]
    constructor
    · intro hc; exact absurd hc (by simp)
    · intro hle; exact absurd (hiff.mpr hle) hw

/-- Witness for C1: at `now = 21250`, exactly the deadline, the controller
moves to Fault. -/
theorem cooldown_only_faults_witness :
    cCool.state = State.COOLDOWN ∧
    (((update quiet 21250 cCool).state
        = if wrapGE0 21250 cCool.deadline = true then State.FAULT else State.COOLDOWN)
     ∧ (∀ c2 now2, (enter State.COOLDOWN now2 c2).deadline = add32 now2 COOLDOWN_MS)
     ∧ (∀ base, cCool.deadline = add32 base COOLDOWN_MS →
          sub32 21250 base < 2147483648 →
          ((update quiet 21250 cCool).state = State.FAULT
            ↔ COOLDOWN_MS ≤ sub32 21250 base))) :=
  ⟨rfl, cooldown_only_faults cCool quiet 21250 rfl⟩

/-! ## C2: Launching is latched for the full relay window -/

theorem enter_launching_fields (c : Ctrl) (now : Nat) :
    (enter State.LAUNCHING now c).out = ⟨false, false, true, true⟩
    ∧ (enter State.LAUNCHING now c).deadline = add32 now RELAY_ON_MS := by
  constructor
  · simp [enter]
  · simp [enter, add32, Nat.mod_add_mod]

/-- Claim C2: While in Launching, any `update(now)` with `now` strictly
before the relay deadline (`wrapGE0` false) leaves the state, every timer
field, and the four discrete outputs unchanged, whatever the inputs read;
the first `update` at or past the deadline forces all four outputs off and
enters Cooldown; and Launching entry itself switches on exactly the relay
and the launch indicator and sets the deadline `RELAY_ON_MS = 5000` ms
after entry. -/
theorem launching_latched (c : Ctrl) (inp : Inputs) (now : Nat)
    (h : c.state = State.LAUNCHING) :
    (wrapGE0 now c.deadline = false →
       ((update inp now c).state = State.LAUNCHING
        ∧ (update inp now c).enteredAt = c.enteredAt
        ∧ (update inp now c).deadline = c.deadline
        ∧ (update inp now c).launchHeldSince = c.launchHeldSince
        ∧ (update inp now c).resetHeldSince = c.resetHeldSince
        ∧ (update inp now c).lastCheckTime = c.lastCheckTime
        ∧ (update inp now c).completionTime = c.completionTime
        ∧ (update inp now c).out = c.out))
    ∧ (wrapGE0 now c.deadline = true →
       ((update inp now c).state = State.COOLDOWN
        ∧ (update inp now c).out = Outputs.allOff))
    ∧ (∀ c2 now2, (enter State.LAUNCHING now2 c2).out = ⟨false, false, true, true⟩
        ∧ (enter State.LAUNCHING now2 c2).deadline = add32 now2 RELAY_ON_MS) := by
  rw [update_eq_launching inp now h]
  refine ⟨?_, ?_, fun c2 now2 => enter_launching_fields c2 now2⟩
  · intro hw
    unfold updateLaunching
    simp [hw, h]
  · intro hw
    unfold updateLaunching
    simp [hw, enter]

/-- Witness for C2, with every input active at `now = 12000`, inside the
relay window. -/
theorem launching_latched_witness :
    cLaunch.state = State.LAUNCHING ∧
    ((wrapGE0 12000 cLaunch.deadline = false →
       ((update ⟨true, true, true⟩ 12000 cLaunch).state = State.LAUNCHING
        ∧ (update ⟨true, true, true⟩ 12000 cLaunch).enteredAt = cLaunch.enteredAt
        ∧ (update ⟨true, true, true⟩ 12000 cLaunch).deadline = cLaunch.deadline
        ∧ (update ⟨true, true, true⟩ 12000 cLaunch).launchHeldSince = cLaunch.launchHeldSince
        ∧ (update ⟨true, true, true⟩ 12000 cLaunch).resetHeldSince = cLaunch.resetHeldSince
        ∧ (update ⟨true, true, true⟩ 12000 cLaunch).lastCheckTime = cLaunch.lastCheckTime
        ∧ (update ⟨true, true, true⟩ 12000 cLaunch).completionTime = cLaunch.completionTime
        ∧ (update ⟨true, true, true⟩ 12000 cLaunch).out = cLaunch.out))
    ∧ (wrapGE0 12000 cLaunch.deadline = true →
       ((update ⟨true, true, true⟩ 12000 cLaunch).state = State.COOLDOWN
        ∧ (update ⟨true, true, true⟩ 12000 cLaunch).out = Outputs.allOff))
    ∧ (∀ c2 now2, (enter State.LAUNCHING now2 c2).out = ⟨false, false, true, true⟩
        ∧ (enter State.LAUNCHING now2 c2).deadline = add32 now2 RELAY_ON_MS)) :=
  ⟨rfl, launching_latched cLaunch ⟨true, true, true⟩ 12000 rfl⟩

/-! ## C3: LaunchCountdown tick behavior -/

/-- Claim C3: In LaunchCountdown with `systemLocked` false, one `update(now)`
acts exactly as the claim orders it: arm reading disengaged enters Fault;
otherwise launch reading released enters Abort; otherwise Launching is
entered iff the wrapped time since LaunchCountdown entry has reached
`HOLD_TO_LAUNCH_MS = 5000` ms; otherwise everything but the buzzer is
unchanged.  Hence, with arm and launch held at every tick, the first tick
at or after entry + 5000 ms reaches Launching, and an earlier release
yields Abort instead. -/
theorem countdown_step_exact (c : Ctrl) (inp : Inputs) (now : Nat)
    (h : c.state = State.LAUNCH_COUNTDOWN) (hl : c.systemLocked = false) :
    ((update inp now c).state
        = (if inp.arm = false then State.FAULT
           else if inp.launch = false then State.ABORT
           else if HOLD_TO_LAUNCH_MS ≤ sub32 now c.enteredAt then State.LAUNCHING
           else State.LAUNCH_COUNTDOWN))
    ∧ (inp.arm = true → inp.launch = true → sub32 now c.enteredAt < HOLD_TO_LAUNCH_MS →
        ((update inp now c).enteredAt = c.enteredAt
         ∧ (update inp now c).deadline = c.deadline
         ∧ (update inp now c).launchHeldSince = c.launchHeldSince
         ∧ (update inp now c).resetHeldSince = c.resetHeldSince
         ∧ (update inp now c).out = c.out
         ∧ (update inp now c).systemLocked = false)) := by
  rw [update_eq_countdown inp now h]
  unfold updateLaunchCountdown
  constructor
  · rcases inp with ⟨arm, reset, launch⟩
    cases arm <;> cases launch <;>
      (simp [hl, enter]
       try (by_cases ht : HOLD_TO_LAUNCH_MS ≤ sub32 now c.enteredAt <;> simp [ht, enter, h]))
  · intro ha hlau ht
    simp [hl, ha, hlau, Nat.not_le.mpr ht, h]

/-- Witness for C3 at `now = 9000` with arm and launch held. -/
theorem countdown_step_exact_witness :
    cCount.state = State.LAUNCH_COUNTDOWN ∧ cCount.systemLocked = false ∧
    (((update ⟨true, false, true⟩ 9000 cCount).state
        = (if (⟨true, false, true⟩ : Inputs).arm = false then State.FAULT
           else if (⟨true, false, true⟩ : Inputs).launch = false then State.ABORT
           else if HOLD_TO_LAUNCH_MS ≤ sub32 9000 cCount.enteredAt then State.LAUNCHING
           else State.LAUNCH_COUNTDOWN))
    ∧ ((⟨true, false, true⟩ : Inputs).arm = true → (⟨true, false, true⟩ : Inputs).launch = true →
        sub32 9000 cCount.enteredAt < HOLD_TO_LAUNCH_MS →
        ((update ⟨true, false, true⟩ 9000 cCount).enteredAt = cCount.enteredAt
         ∧ (update ⟨true, false, true⟩ 9000 cCount).deadline = cCount.deadline
         ∧ (update ⟨true, false, true⟩ 9000 cCount).launchHeldSince = cCount.launchHeldSince
         ∧ (update ⟨true, false, true⟩ 9000 cCount).resetHeldSince = cCount.resetHeldSince
         ∧ (update ⟨true, false, true⟩ 9000 cCount).out = cCount.out
         ∧ (update ⟨true, false, true⟩ 9000 cCount).systemLocked = false))) :=
  ⟨rfl, rfl, countdown_step_exact cCount ⟨true, false, true⟩ 9000 rfl rfl⟩

/-! ## C4: Fault recovery ritual

The original claim fails at one edge: `resetHeldSince = 0` doubles as the
"not holding" sentinel, so a reset hold whose first tick happens when the
wrapped clock reads exactly 0 is not registered until the next tick, and
the 2500 ms count runs from that later tick, not from the tick at which
the hold began. -/

/-- Counterexample to C4 as stated: in Fault, with arm disengaged and
reset read held at every tick from the tick at clock 0 on, the tick at
clock 2500 lies 2500 ms = `RESET_HOLD_MS` after the tick at which the hold
began, and the global-fault predicate is false; the claim demands Ready
there, but the controller is still in Fault (the clock-0 hold start was
dropped by the zero sentinel, `resetHeldSince` stayed 0). -/
theorem fault_reset_zero_tick_cex :
    cFault0.state = State.FAULT ∧ cFault0.systemLocked = false
    ∧ cFault0.resetHeldSince = 0
    ∧ (update resetHeldInp 0 cFault0).resetHeldSince = 0
    ∧ (update resetHeldInp 0 cFault0).state = State.FAULT
    ∧ (update resetHeldInp 2500 (update resetHeldInp 0 cFault0)).state = State.FAULT := by
  decide

/-- Claim C4, amended: In Fault (entry forces `systemLocked` false), one
`update(now)` enters Ready exactly when arm reads disengaged, reset reads
held, and the wrapped time since the recorded hold start has reached
`RESET_HOLD_MS = 2500` ms, the recorded start being the current tick when
`resetHeldSince` was 0 (the global-fault predicate is the constant-false
stub, so its conjunct always holds); any tick at which reset reads
released or arm reads engaged zeroes the hold timer, so releasing and
re-pressing reset restarts the 2500 ms count at the re-press tick.
Because the timer value 0 doubles as the "not holding" sentinel, a hold
whose first tick occurs when the wrapped clock reads exactly 0 is only
registered from the next tick on. -/
theorem fault_step_exact (c : Ctrl) (inp : Inputs) (now : Nat)
    (h : c.state = State.FAULT) (hl : c.systemLocked = false) :
    ((update inp now c).state
        = (if inp.arm = false ∧ inp.reset = true
              ∧ RESET_HOLD_MS ≤ sub32 now
                  (if c.resetHeldSince = 0 then now % U32 else c.resetHeldSince)
           then State.READY else State.FAULT))
    ∧ (inp.arm = false → inp.reset = true →
        sub32 now (if c.resetHeldSince = 0 then now % U32 else c.resetHeldSince)
            < RESET_HOLD_MS →
        (update inp now c).resetHeldSince
          = (if c.resetHeldSince = 0 then now % U32 else c.resetHeldSince))
    ∧ (inp.arm = true ∨ inp.reset = false → (update inp now c).resetHeldSince = 0)
    ∧ (∀ c2 now2, (enter State.FAULT now2 c2).systemLocked = false
        ∧ (enter State.FAULT now2 c2).resetHeldSince = 0) := by
  rw [update_eq_fault inp now h]
  unfold updateFault
  rcases inp with ⟨arm, reset, launch⟩
  refine ⟨?_, ?_, ?_, fun c2 now2 => by simp [enter]⟩
  · cases arm <;> cases reset <;>
      by_cases hz : c.resetHeldSince = 0 <;>
        simp_all [enter, h, globalFaultActive] <;>
          (try (split <;> simp [enter]))
  · intro ha hr ht
    cases ha
    cases hr
    by_cases hz : c.resetHeldSince = 0 <;>
      simp_all [globalFaultActive] <;>
        · split
          · exfalso; omega
          · simp
  · intro hor
    cases arm <;> cases reset <;> simp_all [hl]

/-- Witness for C4 (amended): reset held from the tick at `t = 21250`;
the tick at `t = 23750`, 2500 ms later, recovers to Ready. -/
theorem fault_step_exact_witness :
    (update resetHeldInp 21250 cFault1).state = State.FAULT ∧
    (update resetHeldInp 21250 cFault1).systemLocked = false ∧
    (update resetHeldInp 23750 (update resetHeldInp 21250 cFault1)).state
      = State.READY := by
  refine ⟨by decide, by decide, ?_⟩
  rw [(fault_step_exact (update resetHeldInp 21250 cFault1) resetHeldInp 23750
        (by decide) (by decide)).1]
  decide

/-! ## C5: Armed hold-to-countdown

As with C4, the original claim fails at one edge: `launchHeldSince = 0`
doubles as the "not holding" sentinel, so a launch hold whose first tick
happens when the wrapped clock reads exactly 0 is only registered from the
next tick on, and the 250 ms count runs from that later tick. -/

/-- Counterexample to C5 as stated: launch is read held at every tick from
the tick at clock 0 on; the tick at clock 250 lies 250 ms after the tick
at which the hold began, so the claim demands LaunchCountdown there, but
the controller is still in Armed (the clock-0 hold start was dropped by
the zero sentinel, `launchHeldSince` stayed 0). -/
theorem armed_launch_zero_tick_cex :
    cArmed0.state = State.ARMED ∧ cArmed0.systemLocked = false
    ∧ cArmed0.launchHeldSince = 0
    ∧ (update armLaunch 0 cArmed0).launchHeldSince = 0
    ∧ (update armLaunch 0 cArmed0).state = State.ARMED
    ∧ (update armLaunch 250 (update armLaunch 0 cArmed0)).state = State.ARMED := by
  decide

/-- Claim C5, amended: In Armed with `systemLocked` false, one `update(now)`
behaves as: arm reading disengaged enters Ready; otherwise LaunchCountdown
is entered exactly when launch reads held and the wrapped time since the
recorded hold start has reached 250 ms, the recorded start being the
current tick when `launchHeldSince` was 0; any tick at which launch reads
released zeroes the hold timer (so a shorter hold, e.g. 200 ms, earns no
partial credit toward a later one); and Armed entry itself zeroes the hold
timer.  Because the timer value 0 doubles as the "not holding" sentinel, a
hold whose first tick occurs when the wrapped clock reads exactly 0 is
only registered from the next tick on. -/
theorem armed_step_exact (c : Ctrl) (inp : Inputs) (now : Nat)
    (h : c.state = State.ARMED) (hl : c.systemLocked = false) :
    ((update inp now c).state
        = (if inp.arm = false then State.READY
           else if inp.launch = true
                ∧ 250 ≤ sub32 now
                    (if c.launchHeldSince = 0 then now % U32 else c.launchHeldSince)
             then State.LAUNCH_COUNTDOWN else State.ARMED))
    ∧ (inp.arm = true → inp.launch = true →
        sub32 now (if c.launchHeldSince = 0 then now % U32 else c.launchHeldSince)
            < 250 →
        (update inp now c).launchHeldSince
          = (if c.launchHeldSince = 0 then now % U32 else c.launchHeldSince))
    ∧ (inp.arm = true → inp.launch = false →
        (update inp now c).launchHeldSince = 0)
    ∧ (∀ c2 now2, (enter State.ARMED now2 c2).launchHeldSince = 0) := by
  rw [update_eq_armed inp now h]
  unfold updateArmed
  rcases inp with ⟨arm, reset, launch⟩
  refine ⟨?_, ?_, ?_, fun c2 now2 => by simp [enter]⟩
  · cases arm <;> cases launch <;>
      by_cases hz : c.launchHeldSince = 0 <;>
        simp_all [enter, h, hl] <;>
          (try (split <;> simp [enter]))
  · intro ha hlau ht
    cases ha
    cases hlau
    by_cases hz : c.launchHeldSince = 0 <;>
      simp_all [hl] <;>
        · split
          · exfalso; omega
          · simp
  · intro ha hlau
    cases ha
    cases hlau
    simp_all [hl]

/-- Witness for C5 (amended): launch held from the tick at `t = 6000`; the
tick at `t = 6250`, 250 ms later, enters LaunchCountdown. -/
theorem armed_step_exact_witness :
    (update armLaunch 6000 cArmed1).state = State.ARMED ∧
    (update armLaunch 6000 cArmed1).systemLocked = false ∧
    (update armLaunch 6250 (update armLaunch 6000 cArmed1)).state
      = State.LAUNCH_COUNTDOWN := by
  refine ⟨by decide, by decide, ?_⟩
  rw [(armed_step_exact (update armLaunch 6000 cArmed1) armLaunch 6250
        (by decide) (by decide)).1]
  decide

/-! ## C8: what `enter` does (and does not do) to the timer fields

The claimed invariant "entering any state clears all timers not relevant
to it" does not hold: `enter` only initializes the timers its target
state itself uses.  In particular Ready entry keeps `resetHeldSince` and
LaunchCountdown entry keeps `launchHeldSince`. -/

/-- Counterexample to C8 as stated, on reachable traces: recovering from
Fault to Ready leaves `resetHeldSince` at the old hold-start time 21300
(the claim demands 0 whenever newly in Ready), and entering
LaunchCountdown from Armed leaves `launchHeldSince` at the old hold-start
time 6000 (the claim demands 0 whenever newly in LaunchCountdown). -/
theorem enter_stale_timer_cex :
    (update resetHeldInp 23800 (update resetHeldInp 21300 cFault1)).state
        = State.READY
    ∧ (update resetHeldInp 23800 (update resetHeldInp 21300 cFault1)).resetHeldSince
        = 21300
    ∧ (update armLaunch 6250 (update armLaunch 6000 cArmed1)).state
        = State.LAUNCH_COUNTDOWN
    ∧ (update armLaunch 6250 (update armLaunch 6000 cArmed1)).launchHeldSince
        = 6000 := by
  decide

/-- Claim C8, amended: `enter` initializes exactly the timer fields its
target state uses: Armed entry zeroes `launchHeldSince`, Fault entry
zeroes `resetHeldSince`, and the four time-bounded states set `deadline`
to entry time plus their window; every other timer field keeps its prior
value across `enter` -- in particular `resetHeldSince` survives Ready
entry and `launchHeldSince` survives LaunchCountdown entry (those stale
values are only ever read after the owning state re-initializes them). -/
theorem enter_timer_fields (c : Ctrl) (now : Nat) :
    (enter State.ARMED now c).launchHeldSince = 0
    ∧ (enter State.FAULT now c).resetHeldSince = 0
    ∧ (enter State.SPLASH now c).deadline = add32 now 5000
    ∧ (enter State.LAUNCHING now c).deadline = add32 now RELAY_ON_MS
    ∧ (enter State.COOLDOWN now c).deadline = add32 now COOLDOWN_MS
    ∧ (enter State.ABORT now c).deadline = add32 now ABORT_INHIBIT_MS
    ∧ (enter State.READY now c).resetHeldSince = c.resetHeldSince
    ∧ (enter State.READY now c).launchHeldSince = c.launchHeldSince
    ∧ (enter State.READY now c).deadline = c.deadline
    ∧ (enter State.LAUNCH_COUNTDOWN now c).launchHeldSince = c.launchHeldSince
    ∧ (enter State.LAUNCH_COUNTDOWN now c).deadline = c.deadline
    ∧ (enter State.ARMED now c).deadline = c.deadline
    ∧ (enter State.FAULT now c).deadline = c.deadline
    ∧ (enter State.STARTUP now c).deadline = c.deadline := by
  simp [enter, add32, Nat.mod_add_mod]

/-! ## C9: `stopBuzzer` silences synchronously and stays silent -/

/-- Claim C9: For every sequencer configuration, `stopBuzzer` issues
`noTone` and deactivates the player within the same call, and a stopped
player is a fixed point of `updateBuzzer`: any later `updateBuzzer now`
returns the player unchanged and issues no tone command -- so until the
next `playBuzzerSequence` call every `updateBuzzer` is a no-op. -/
theorem stop_buzzer_silences (b : BuzzPlayer) (now : Nat) :
    (stopBuzzer b).2 = [ToneAct.noTone]
    ∧ (stopBuzzer b).1.active = false
    ∧ (stopBuzzer b).1.seq = none
    ∧ updateBuzzer now (stopBuzzer b).1 = ((stopBuzzer b).1, []) := by
  refine ⟨rfl, rfl, rfl, ?_⟩
  unfold updateBuzzer stopBuzzer
  simp

/-! ## C10: the sequencer never reads out of bounds -/

/-- Claim C10: `playBuzzerSequence` establishes the buzzer invariant
whenever the declared length fits the sequence (every call site passes the
exact array length); `stopBuzzer` and `updateBuzzer` preserve it
(`updateBuzzer` wraps the index to 0 when looping, deactivates before the
index reaches the length otherwise, and returns immediately when
inactive); and under the invariant the `seq[idx]` read in `updateBuzzer`
is within the bounds of the active sequence. -/
theorem buzzer_index_in_bounds :
    (∀ s length loop, length ≤ s.length →
        buzzerWF (playBuzzerSequence (some s) length loop) = true)
    ∧ (∀ b, buzzerWF b = true → buzzerWF (stopBuzzer b).1 = true)
    ∧ (∀ b now, buzzerWF b = true → buzzerWF (updateBuzzer now b).1 = true)
    ∧ (∀ b s, buzzerWF b = true → b.active = true → b.seq = some s →
        b.len ≠ 0 → b.idx < s.length) := by
  refine ⟨?_, ?_, ?_, ?_⟩
  · intro s length loop hlen
    by_cases h0 : 0 < length <;> simp_all [buzzerWF, playBuzzerSequence]
  · intro b hb
    simp [buzzerWF, stopBuzzer]
  · intro b now hb
    unfold updateBuzzer
    cases hseq : b.seq with
    | none => simpa [hseq] using hb
    | some s =>
      simp only [hseq]
      split_ifs with h1 h2 h3 h4 h5 h6 <;>
        simp_all [buzzerWF, hseq]
  · intro b s hb hact hseq hlen
    simp [buzzerWF, hact, hseq] at hb
    omega

/-- Witness for C10 at the armed-siren call site
`playBuzzerSequence(SND_ARMED, 2, true)`. -/
theorem buzzer_index_in_bounds_witness :
    buzzerWF (playBuzzerSequence (some SND_ARMED) 2 true) = true
    ∧ buzzerWF (updateBuzzer 0 (playBuzzerSequence (some SND_ARMED) 2 true)).1 = true
    ∧ (playBuzzerSequence (some SND_ARMED) 2 true).idx < SND_ARMED.length :=
  ⟨buzzer_index_in_bounds.1 SND_ARMED 2 true (by decide),
   buzzer_index_in_bounds.2.2.1 (playBuzzerSequence (some SND_ARMED) 2 true) 0
     (buzzer_index_in_bounds.1 SND_ARMED 2 true (by decide)),
   buzzer_index_in_bounds.2.2.2 (playBuzzerSequence (some SND_ARMED) 2 true) SND_ARMED
     (buzzer_index_in_bounds.1 SND_ARMED 2 true (by decide)) (by decide) rfl (by decide)⟩

/-! ## C7: wrap-correct deadline arithmetic

All five deadline comparisons (`Splash`, `Launching`, `Cooldown`, `Abort`
ends and the buzzer step) use `(long)(now - deadline) >= 0`, i.e.
`wrapGE0`, and the elapsed-time thresholds use unsigned wrapped
differences (`sub32`), so each fires exactly when the wrapped elapsed
time reaches its constant -- with one exception the original claim
misses: the buzzer's step deadline value 0 doubles as "unset", so the
2^-32-probability step whose computed deadline `start + duration` wraps
to exactly 0 is restarted instead of advanced at its deadline. -/

/-- Counterexample to C7 as stated: the buzzer step started at
`base = 2^32 - 500` has deadline `D = base + 500 (mod 2^32) = 0`; at
`now = 0` the wrapped elapsed time is exactly 500, the note's duration
constant, so the claim demands the step advance to fire -- instead the
sequencer reads the zero deadline as "no deadline set", re-issues the
tone, and pushes the step deadline 500 ms further out. -/
theorem buzzer_zero_deadline_cex :
    bLaunch0.active = true
    ∧ bLaunch0.stepDeadline = add32 4294966796 500
    ∧ bLaunch0.stepDeadline = 0
    ∧ sub32 0 4294966796 = 500
    ∧ (updateBuzzer 0 bLaunch0).1.stepDeadline = 500
    ∧ (updateBuzzer 0 bLaunch0).1.idx = bLaunch0.idx
    ∧ (updateBuzzer 0 bLaunch0).2 = [ToneAct.tone 1800 500] := by
  decide

/-- Claim C7, amended: The signed wrapped comparison `wrapGE0` on a
deadline `base + d (mod 2^32)` fires exactly when the wrapped elapsed
time `sub32 now base` reaches `d`, for any `now` within half the counter
range of `base`; consequently the Splash, Launching, Cooldown and Abort
deadline transitions, and the buzzer step advance for any step deadline
other than the sentinel value 0, fire exactly at their constants even
when the interval straddles the 32-bit wrap; the startup-check
elapsed-time threshold (an unsigned wrapped comparison) likewise fires
exactly at `STARTUP_CHECK_INTERVAL` (the launch/reset hold thresholds are
the same `sub32`-against-constant pattern). -/
theorem deadline_wrap_exact :
    (∀ base d now, d < 2147483648 → sub32 now base < 2147483648 →
        (wrapGE0 now (add32 base d) = true ↔ d ≤ sub32 now base))
    ∧ (∀ (c : Ctrl) inp now base, c.state = State.SPLASH →
        c.deadline = add32 base 5000 → sub32 now base < 2147483648 →
        ((update inp now c).state = State.STARTUP ↔ 5000 ≤ sub32 now base))
    ∧ (∀ (c : Ctrl) inp now base, c.state = State.LAUNCHING →
        c.deadline = add32 base RELAY_ON_MS → sub32 now base < 2147483648 →
        ((update inp now c).state = State.COOLDOWN ↔ RELAY_ON_MS ≤ sub32 now base))
    ∧ (∀ (c : Ctrl) inp now base, c.state = State.COOLDOWN →
        c.deadline = add32 base COOLDOWN_MS → sub32 now base < 2147483648 →
        ((update inp now c).state = State.FAULT ↔ COOLDOWN_MS ≤ sub32 now base))
    ∧ (∀ (c : Ctrl) inp now base, c.state = State.ABORT →
        c.deadline = add32 base ABORT_INHIBIT_MS → sub32 now base < 2147483648 →
        ((update inp now c).state ≠ State.ABORT ↔ ABORT_INHIBIT_MS ≤ sub32 now base))
    ∧ (∀ (b : BuzzPlayer) s base d now, b.active = true → b.seq = some s →
        b.len ≠ 0 → b.stepDeadline = add32 base d → b.stepDeadline ≠ 0 →
        d < 2147483648 → sub32 now base < 2147483648 →
        ((updateBuzzer now b).1.stepDeadline = 0 ↔ d ≤ sub32 now base))
    ∧ (∀ (c : Ctrl) now, c.state = State.STARTUP →
        c.startupCheckIndex < STARTUP_CHECKS_COUNT →
        ((update quiet now c).startupCheckIndex = c.startupCheckIndex + 1
          ↔ STARTUP_CHECK_INTERVAL ≤ sub32 now c.lastCheckTime)) := by
  refine ⟨fun base d now hd he => wrap_fire_iff hd he, ?_, ?_, ?_, ?_, ?_, ?_⟩
  · intro c inp now base h hdl he
    rw [update_eq_splash inp now h]
    unfold updateSplash
    have hiff := @wrap_fire_iff base 5000 now (by norm_num) he
    simp only [h, hdl]
    by_cases hw : wrapGE0 now (add32 base 5000) = true
    · simp [hw, enter, hiff.mp hw]
    · rw [if_neg hw]
      simp only [h]
      constructor
      · intro hc; exact absurd hc (by simp)
      · intro hle; exact absurd (hiff.mpr hle) hw
  · intro c inp now base h hdl he
    rw [update_eq_launching inp now h]
    unfold updateLaunching
    have hiff := @wrap_fire_iff base RELAY_ON_MS now (by norm_num [RELAY_ON_MS]) he
    simp only [h, hdl]
    by_cases hw : wrapGE0 now (add32 base RELAY_ON_MS) = true
    · simp [hw, enter, hiff.mp hw]
    · rw [if_neg hw]
      simp only [h]
      constructor
      · intro hc; exact absurd hc (by simp)
      · intro hle; exact absurd (hiff.mpr hle) hw
  · intro c inp now base h hdl he
    rw [update_eq_cooldown inp now h]
    unfold updateCooldown
    have hiff := @wrap_fire_iff base COOLDOWN_MS now (by norm_num [COOLDOWN_MS]) he
    simp only [h, hdl]
    by_cases hw : wrapGE0 now (add32 base COOLDOWN_MS) = true
    · simp [hw, enter, hiff.mp hw]
    · rw [if_neg hw]
      simp only [h]
      constructor
      · intro hc; exact absurd hc (by simp)
      · intro hle; exact absurd (hiff.mpr hle) hw
  · intro c inp now base h hdl he
    rw [update_eq_abort inp now h]
    unfold updateAbort
    have hiff := @wrap_fire_iff base ABORT_INHIBIT_MS now (by norm_num [ABORT_INHIBIT_MS]) he
    simp only [h, hdl]
    by_cases hw : wrapGE0 now (add32 base ABORT_INHIBIT_MS) = true
    · rw [if_pos hw]
      have hle := hiff.mp hw
      by_cases ha : inp.arm = true <;> simp [ha, enter, hle]
    · rw [if_neg hw]
      simp only [h]
      constructor
      · intro hc; exact absurd rfl hc
      · intro hle; exact absurd (hiff.mpr hle) hw
  · intro b s base d now hact hseq hlen hstep hstep0 hd he
    unfold updateBuzzer
    have hiff := @wrap_fire_iff base d now hd he
    rw [hstep] at hstep0
    simp only [hseq, hact, hlen]
    rw [if_neg (by simp [hlen]), if_neg (by rw [hstep]; exact hstep0)]
    by_cases hw : wrapGE0 now b.stepDeadline = true
    · rw [if_pos hw]
      rw [hstep] at hw
      have hle := hiff.mp hw
      split_ifs <;> simp [hle]
    · rw [if_neg hw]
      rw [hstep] at hw
      simp only [hstep]
      constructor
      · intro hc; exact absurd hc hstep0
      · intro hle; exact absurd (hiff.mpr hle) hw
  · intro c now h hidx
    rw [update_eq_startup quiet now h]
    unfold updateStartup
    simp only [quiet]
    by_cases hfire : STARTUP_CHECK_INTERVAL ≤ sub32 now c.lastCheckTime
    · simp [hfire, hidx]
    · simp [hfire]

/-- Witness for C7 (amended): a deadline interval straddling the wrap
boundary (`base = 2^32 - 200`, `d = 300`, `now = 100`) and the concrete
Cooldown deadline transition at its exact firing tick. -/
theorem deadline_wrap_exact_witness :
    ((wrapGE0 100 (add32 4294967096 300) = true) ↔ 300 ≤ sub32 100 4294967096)
    ∧ ((update quiet 21250 cCool).state = State.FAULT
        ↔ COOLDOWN_MS ≤ sub32 21250 16250) :=
  ⟨deadline_wrap_exact.1 4294967096 300 100 (by norm_num) (by decide),
   deadline_wrap_exact.2.2.2.1 cCool quiet 21250 16250 rfl (by decide) (by decide)⟩

/-! ## C6: the startup trace

The per-millisecond startup trace is settled by induction, through an
exact invariant on the Startup progress counters.  With `update` called
at `now = 0, 1, 2, ...` and no control active, the k-th check item fires
at `t = 250 k` (the first at 250, the 20th at 5000), the completion
banner is posted at `t = 5250`, and the 1000 ms hold ends at `t = 6250`:
Ready is entered at `t = 6250`, not at `t = 6000` as the claim states. -/

theorem runTicks_range_succ (inp : Inputs) (c : Ctrl) (n : Nat) :
    runTicks inp c (List.range (n + 1)) = update inp n (runTicks inp c (List.range n)) := by
  simp [runTicks, List.range_succ]

theorem stinv_step (n : Nat) (c : Ctrl) (h : StInv n c) (hn : n + 1 ≤ 6249) :
    StInv (n + 1) (update quiet (n + 1) c) := by
  obtain ⟨hst, hlk, hidx, hlast, hc1, hc2⟩ := h
  rw [update_eq_startup quiet (n + 1) hst]
  unfold updateStartup
  have hU : (n + 1) % U32 = n + 1 := by simp only [U32]; omega
  have hsub : sub32 (n + 1) (250 * (n / 250)) = (n + 1) - 250 * (n / 250) :=
    sub32_small (by omega) (by simp only [U32]; omega)
  simp only [quiet, Bool.false_eq_true, or_self, if_false, ite_false, hlast, hidx,
    hsub, hU]
  by_cases hfire : STARTUP_CHECK_INTERVAL ≤ (n + 1) - 250 * (n / 250)
  case neg =>
    rw [if_neg hfire]
    simp only [STARTUP_CHECK_INTERVAL, STARTUP_CHECKS_COUNT] at hfire
    have hdiv : (n + 1) / 250 = n / 250 := by omega
    refine ⟨hst, hlk, ?_, ?_, ?_, ?_⟩ <;> try dsimp only
    · omega
    · omega
    · intro h5; exact hc1 (by omega)
    · intro h5; exact hc2 (by omega)
  case pos =>
    rw [if_pos hfire]
    simp only [STARTUP_CHECK_INTERVAL, STARTUP_CHECKS_COUNT] at hfire
    have hdvd : (n + 1) % 250 = 0 := by omega
    by_cases hlt : n / 250 < 20
    · rw [if_pos (by simp only [STARTUP_CHECKS_COUNT]; omega)]
      refine ⟨hst, hlk, ?_, ?_, ?_, ?_⟩ <;> try dsimp only
      · omega
      · omega
      · intro h5; exfalso; omega
      · intro h5; exact hc2 (by omega)
    · rw [if_neg (by simp only [STARTUP_CHECKS_COUNT]; omega)]
      have hge : 5000 ≤ n := by omega
      by_cases n5 : 5250 ≤ n
      · obtain ⟨hcompT, hctimeT⟩ := hc1 n5
        rw [if_neg (show ¬ (c.startupComplete = false) by rw [hcompT]; simp)]
        rw [if_neg (show ¬ (1000 ≤ sub32 (n + 1) c.completionTime) by
          rw [hctimeT, sub32_small (by omega) (by simp only [U32]; omega)]
          omega)]
        refine ⟨hst, hlk, ?_, ?_, ?_, ?_⟩ <;> try dsimp only
        · omega
        · omega
        · intro h5; exact ⟨hcompT, hctimeT⟩
        · intro h5; exfalso; omega
      · obtain ⟨hcompF, hctimeF⟩ := hc2 (by omega)
        rw [if_pos (show c.startupComplete = false from hcompF)]
        rw [if_neg (show ¬ (1000 ≤ sub32 (n + 1) (n + 1)) by
          rw [sub32_small (le_refl _) (by simp only [U32]; omega)]
          omega)]
        refine ⟨hst, hlk, ?_, ?_, ?_, ?_⟩ <;> try dsimp only
        · omega
        · omega
        · intro h5; exact ⟨rfl, by omega⟩
        · intro h5; exfalso; omega

theorem stinv_zero : StInv 0 (runTicks quiet initCtrl (List.range 1)) := by
  decide

theorem startup_trace_inv :
    ∀ n, n ≤ 6249 → StInv n (runTicks quiet initCtrl (List.range (n + 1))) := by
  intro n
  induction n with
  | zero => intro _; exact stinv_zero
  | succ k ih =>
      intro hk
      rw [runTicks_range_succ]
      exact stinv_step k _ (ih (by omega)) hk

theorem enter_ready_fields (c : Ctrl) (now : Nat) :
    (enter State.READY now c).state = State.READY
    ∧ (enter State.READY now c).systemLocked = false := by
  constructor <;> simp [enter]

theorem startup_finish_step (c : Ctrl) (h : StInv 6249 c) :
    (update quiet 6250 c).state = State.READY
    ∧ (update quiet 6250 c).systemLocked = false := by
  obtain ⟨hst, hlk, hidx, hlast, hc1, hc2⟩ := h
  obtain ⟨hcompT, hctimeT⟩ := hc1 (by norm_num)
  rw [show (6249 / 250 ⊓ 20 : Nat) = 20 by norm_num] at hidx
  rw [show (250 * (6249 / 250) : Nat) = 6000 by norm_num] at hlast
  rw [update_eq_startup quiet 6250 hst]
  unfold updateStartup
  rw [if_neg (show ¬ (quiet.arm = true ∨ quiet.reset = true ∨ quiet.launch = true) by decide)]
  rw [hlast, hidx]
  rw [if_pos (show STARTUP_CHECK_INTERVAL ≤ sub32 6250 6000 by decide)]
  rw [if_neg (show ¬ ((20 : Nat) < STARTUP_CHECKS_COUNT) by decide)]
  rw [if_neg (show ¬ (c.startupComplete = false) by rw [hcompT]; simp)]
  rw [if_pos (show (1000 : Nat) ≤ sub32 6250 c.completionTime by rw [hctimeT]; decide)]
  exact ⟨(enter_ready_fields _ _).1, (enter_ready_fields _ _).2⟩

theorem startup_ready_at_6250 :
    (runTicks quiet initCtrl (List.range 6251)).state = State.READY
    ∧ (runTicks quiet initCtrl (List.range 6251)).systemLocked = false := by
  rw [show (6251 : Nat) = 6250 + 1 from rfl, runTicks_range_succ]
  exact startup_finish_step _ (startup_trace_inv 6249 (by norm_num))

/-- Counterexample to C6 as stated: after `update` calls at every
millisecond `t = 0, 1, ..., 6000` with no control active, the controller
is still in Startup (and still locked) -- it has not entered Ready at
`t = 6000` as the claim demands.  (The first check only fires at
`t = 250`, the 20th at `t = 5000`, the completion banner at `t = 5250`,
and the 1000 ms hold then runs to `t = 6250`.) -/
theorem startup_not_ready_at_6000 :
    (runTicks quiet initCtrl (List.range 6001)).state = State.STARTUP
    ∧ (runTicks quiet initCtrl (List.range 6001)).systemLocked = true := by
  have h := startup_trace_inv 6000 (by norm_num)
  exact ⟨h.1, h.2.1⟩

/-- Claim C6, amended: Starting in Startup at `t = 0` with no control
active and `update(now)` called once per millisecond, the controller runs
the 20 self-check items at `STARTUP_CHECK_INTERVAL = 250` ms intervals
(check index `min (t / 250) 20`, so the 20th check fires at `t = 5000`),
posts completion at `t = 5250`, holds 1000 ms, and enters Ready at
exactly `t = 6250` -- not `t = 6000`; `systemLocked` is true from
construction through every Startup tick and becomes false exactly on
Ready entry. -/
theorem startup_ready_exactly_6250 :
    (∀ n, n ≤ 6249 →
        (runTicks quiet initCtrl (List.range (n + 1))).state = State.STARTUP
        ∧ (runTicks quiet initCtrl (List.range (n + 1))).systemLocked = true
        ∧ (runTicks quiet initCtrl (List.range (n + 1))).startupCheckIndex
            = min (n / 250) 20)
    ∧ (runTicks quiet initCtrl (List.range 6251)).state = State.READY
    ∧ (runTicks quiet initCtrl (List.range 6251)).systemLocked = false
    ∧ initCtrl.systemLocked = true := by
  refine ⟨?_, startup_ready_at_6250.1, startup_ready_at_6250.2, rfl⟩
  intro n hn
  have h := startup_trace_inv n hn
  exact ⟨h.1, h.2.1, h.2.2.1⟩

/-- Witness for C6 (amended), instantiating the per-tick clause at
`n = 1000`. -/
theorem startup_ready_exactly_6250_witness :
    (1000 : Nat) ≤ 6249 ∧
    (runTicks quiet initCtrl (List.range 1001)).state = State.STARTUP :=
  ⟨by norm_num, (startup_ready_exactly_6250.1 1000 (by norm_num)).1⟩
